import Mathlib

/-!
Shallow embedding of the connection-discovery module `galaxy.py` of the
docker-jupyter-notebook wrapper.  The module-level names `_get_conf`,
`_get_ip`, `_test_url` and `get_galaxy_connection` are translated one to
one.  External collaborators (the process environment, the
netstat/grep/awk pipeline, and the bioblend client) are injected through
a `World` record so that every claim can quantify over their behaviour.

Python exceptions are modelled by the `PyExc` type and fallible steps by
`Except PyExc`.  One point is embedded with particular care: the module
binds its logger to the name `tlog` (line 15 of the source), while the
call sites at lines 43 and 57 refer to a name `log`, which is bound
nowhere in the module; evaluating those calls therefore raises
`NameError` at runtime.  `logDebug` below records exactly that fact.
-/

namespace GalaxyPy

/-- Python exception values that can arise in the embedded fragment:
`nameError` for the unbound name `log`, `typeError` for
`Template(None).safe_substitute`, `exception msg` for the two
`raise Exception(...)` statements, and `external n` for an arbitrary
exception raised by an external collaborator (network, subprocess,
HTTP, authorization, ...). -/
inductive PyExc where
  | nameError
  | typeError
  | exception (msg : String)
  | external (n : Nat)
deriving DecidableEq, Repr

/-- Opaque connection handle: a `GalaxyInstance` object returned by one
of the two bioblend constructors.  Only its identity matters. -/
structure Handle where
  id : Nat
deriving DecidableEq, Repr

/-- External world injected into the module: the process environment
(`os.environ.get`), the result of the `netstat -nr | grep | awk`
pipeline read at line 42 (which may itself fail), and the four external
client operations used by `_test_url`:
`objects.GalaxyInstance(url, key)`, `gi.histories.get(history_id)`,
`galaxy.GalaxyInstance(url=url, key=key)` and
`gi.histories.get_histories()`.  Each may return a value or raise. -/
structure World where
  env : String → Option String
  netstat : Except PyExc String
  mkObjectsGI : String → Option String → Except PyExc Handle
  objHistGet : Handle → Option String → Except PyExc Unit
  mkGI : String → Option String → Except PyExc Handle
  getHistories : Handle → Except PyExc Unit

/-- Python `str.lower()` restricted to the ASCII keys used here. -/
def pyLower (s : String) : String :=
  String.mk (s.data.map Char.toLower)

/-- ENV_KEYS tuple, lines 20-22 of the source. -/
def ENV_KEYS : List String :=
  ["DEBUG", "GALAXY_WEB_PORT", "NOTEBOOK_PASSWORD", "CORS_ORIGIN",
   "DOCKER_PORT", "API_KEY", "HISTORY_ID", "REMOTE_HOST", "GALAXY_URL"]

/-- A Python dict from string keys to string-or-None values, in
insertion order. -/
abbrev Conf := List (String × Option String)

/-- Python `k in conf` (key membership). -/
def dictHasKey (d : Conf) (k : String) : Bool :=
  (d.lookup k).isSome

/-- Python `conf[k]` at a key known to be present (used only on dicts
built by `_get_conf`, which inserts every key it is read at). -/
def dictItem (d : Conf) (k : String) : Option String :=
  (d.lookup k).getD none

/-- Lines 25-30: build the configuration dict.  Every key of `ENV_KEYS`
is inserted lower-cased with value `os.environ.get(key, None)`, and then
`conf['galaxy_paster_port'] = conf['galaxy_web_port']` appends one more
entry aliasing the GALAXY_WEB_PORT value. -/
def _get_conf (env : String → Option String) : Conf :=
  let base := ENV_KEYS.map (fun key => (pyLower key, env key))
  base ++ [("galaxy_paster_port", (base.lookup "galaxy_web_port").getD none)]

/-- Evaluation of the expression `log.debug(...)` (lines 43 and 57).
The module binds `tlog` at line 15 but never `log`, so looking up the
name raises `NameError`. -/
def logDebug : Except PyExc Unit :=
  Except.error PyExc.nameError

/-- Lines 33-44: `_get_ip`.  Runs the netstat pipeline (injected), reads
its output, then executes `log.debug(...)` -- which raises `NameError`
-- before the `return` statement is reached. -/
def _get_ip (w : World) : Except PyExc String :=
  match w.netstat with
  | Except.error e => Except.error e
  | Except.ok galaxy_ip =>
    match logDebug with
    | Except.error e => Except.error e
    | Except.ok _ => Except.ok galaxy_ip

/-- Body of the `try` block of `_test_url` (lines 50-58): construct a
client in one of the two calling conventions, perform one read, then run
`log.debug(...)`, then return the client. -/
def attemptRead (w : World) (url : String) (key : Option String)
    (history_id : Option String) (use_objects : Bool) : Except PyExc Handle :=
  if use_objects then
    match w.mkObjectsGI url key with
    | Except.error e => Except.error e
    | Except.ok gi =>
      match w.objHistGet gi history_id with
      | Except.error e => Except.error e
      | Except.ok _ =>
        match logDebug with
        | Except.error e => Except.error e
        | Except.ok _ => Except.ok gi
  else
    match w.mkGI url key with
    | Except.error e => Except.error e
    | Except.ok gi =>
      match w.getHistories gi with
      | Except.error e => Except.error e
      | Except.ok _ =>
        match logDebug with
        | Except.error e => Except.error e
        | Except.ok _ => Except.ok gi

/-- Lines 47-60: `_test_url`.  The `except Exception: return None`
clause turns every exception from the try body into `none`. -/
def _test_url (w : World) (url : String) (key : Option String)
    (history_id : Option String) (use_objects : Bool) : Option Handle :=
  match attemptRead w url key history_id use_objects with
  | Except.ok gi => some gi
  | Except.error _ => none

/-- Character class of the first character of a Python
`string.Template` identifier: `[_a-zA-Z]`. -/
def isIdentStart (c : Char) : Bool :=
  c = '_' || ('a' ≤ c && c ≤ 'z') || ('A' ≤ c && c ≤ 'Z')

/-- Character class of the remaining characters: `[_a-zA-Z0-9]`. -/
def isIdentChar (c : Char) : Bool :=
  isIdentStart c || ('0' ≤ c && c ≤ '9')

/-- Longest prefix of identifier characters, with the remainder. -/
def spanIdent : List Char → List Char × List Char
  | [] => ([], [])
  | c :: cs =>
    if isIdentChar c then
      match spanIdent cs with
      | (a, b) => (c :: a, b)
    else ([], c :: cs)

/-- One scan of Python `string.Template.safe_substitute` with the
single-entry mapping `name -> repl`: `$$` becomes `$`; `$ident` and
`$\x7bident\x7d` are replaced when `ident = name` and otherwise left as
matched; an invalid `$` is left in place and scanning resumes after it.
The fuel argument strictly exceeds the length of the list and decreases
at every recursive call, each of which consumes at least one
character. -/
def substGoF (name repl : String) : Nat → List Char → List Char
  | 0, cs => cs
  | _ + 1, [] => []
  | fuel + 1, c :: rest =>
    if c = '$' then
      match rest with
      | [] => ['$']
      | d :: rest2 =>
        if d = '$' then
          '$' :: substGoF name repl fuel rest2
        else if d = '\x7b' then
          match spanIdent rest2 with
          | (ident, rest3) =>
            match ident, rest3 with
            | i0 :: is, e :: rest4 =>
              if e = '\x7d' then
                (if String.mk (i0 :: is) = name then repl.data
                 else '$' :: '\x7b' :: ((i0 :: is) ++ ['\x7d'])) ++
                  substGoF name repl fuel rest4
              else '$' :: substGoF name repl fuel rest
            | _, _ => '$' :: substGoF name repl fuel rest
        else if isIdentStart d then
          match spanIdent (d :: rest2) with
          | (ident, rest3) =>
            (if String.mk ident = name then repl.data else '$' :: ident) ++
              substGoF name repl fuel rest3
        else '$' :: substGoF name repl fuel rest
    else c :: substGoF name repl fuel rest

/-- `Template(t).safe_substitute(name = repl)`. -/
def safe_substitute (t : String) (name repl : String) : String :=
  String.mk (substGoF name repl (t.data.length + 1) t.data)

/-- Line 86: the templated candidate URL, with `$DOCKER_HOST` replaced
by the gateway address. -/
def candidate1 (gurl ip : String) : String :=
  safe_substitute gurl "DOCKER_HOST" ip

/-- Python `s.rstrip('/')`. -/
def pyRstripSlash (s : String) : String :=
  String.mk (s.data.reverse.dropWhile (fun c => c = '/')).reverse

/-- Python `s.strip()` (whitespace at both ends). -/
def pyStrip (s : String) : String :=
  String.mk ((s.data.dropWhile Char.isWhitespace).reverse.dropWhile
    Char.isWhitespace).reverse

/-- Python `s.split('/')`: every separator produces a field boundary,
empty fields included. -/
def splitSlashGo : List Char → List Char → List String
  | [], acc => [String.mk acc.reverse]
  | c :: cs, acc =>
    if c = '/' then String.mk acc.reverse :: splitSlashGo cs []
    else splitSlashGo cs (c :: acc)

/-- Python `s.split('/')` on a string. -/
def pySplitSlash (s : String) : List String :=
  splitSlashGo s.data []

/-- Lines 93-95: `app_path = conf['galaxy_url'].rstrip('/')` followed by
`app_path = ''.join(app_path.split('/')[3:])` -- note the separator-free
join. -/
def app_path_of (gurl : String) : String :=
  String.join ((pySplitSlash (pyRstripSlash gurl)).drop 3)

/-- Python `'%s' % v` for a value that is a string or None. -/
def pyFormatOpt : Option String → String
  | some s => s
  | none => "None"

/-- Lines 106-107: the reconstructed candidate URL
`('http://%s:%s/%s' % (galaxy_ip.strip(), galaxy_port,
app_path.strip())).rstrip('/')`. -/
def candidate2 (gurl ip : String) (port : Option String) : String :=
  pyRstripSlash ("http://" ++ pyStrip ip ++ ":" ++ pyFormatOpt port ++ "/" ++
    pyStrip (app_path_of gurl))

/-- Modelled from the spec: the reconstructed candidate as section 4.1
step 3 and the claim C7 describe it -- discard the protocol/host/port
segment of the template, KEEP the path suffix (internal separators
included), discard trailing separators, assemble
`http://<gateway>:<port>/<path>`, and strip a trailing separator from
the final URL.  Used only to compare the description with the source's
`candidate2`. -/
def candidate2_spec (gurl ip port : String) : String :=
  pyRstripSlash ("http://" ++ ip ++ ":" ++ port ++ "/" ++
    String.intercalate "/" ((pySplitSlash (pyRstripSlash gurl)).drop 3))

/-- Lines 86-114 of `get_galaxy_connection`, with the gateway address
and the probe (the closure over `_test_url`) as parameters: build the
templated candidate and probe it; on failure compute the app path, check
the `'galaxy_paster_port' not in conf` guard (raising
`Exception("No port")` when it fires), build the reconstructed candidate
and probe it; on failure raise the terminal connection error.  A
configuration whose `galaxy_url` entry is None makes
`Template(None).safe_substitute(...)` raise `TypeError`. -/
def resolveFrom (conf : Conf) (galaxy_ip : String)
    (probe : String → Option Handle) : Except PyExc Handle :=
  match dictItem conf "galaxy_url" with
  | none => Except.error PyExc.typeError
  | some gurl =>
    match probe (candidate1 gurl galaxy_ip) with
    | some gi => Except.ok gi
    | none =>
      if !(dictHasKey conf "galaxy_paster_port") then
        Except.error (PyExc.exception "No port")
      else
        match probe (candidate2 gurl galaxy_ip
            (dictItem conf "galaxy_paster_port")) with
        | some gi => Except.ok gi
        | none =>
          Except.error (PyExc.exception
            "Could not connect to a galaxy instance. Please contact your SysAdmin for help with this error")

/-- Line 19. -/
def DEFAULT_USE_OBJECTS : Bool := true

/-- Lines 63-114: `get_galaxy_connection`.  Reads the configuration,
extracts `history_id` and `api_key`, calls `_get_ip` (whose exception,
if any, propagates), and runs the candidate/failover sequence with the
probe `_test_url`. -/
def get_galaxy_connection (w : World)
    (use_objects : Bool := DEFAULT_USE_OBJECTS) : Except PyExc Handle :=
  let conf := _get_conf w.env
  let history_id := dictItem conf "history_id"
  let key := dictItem conf "api_key"
  match _get_ip w with
  | Except.error e => Except.error e
  | Except.ok galaxy_ip =>
    resolveFrom conf galaxy_ip
      (fun url => _test_url w url key history_id use_objects)

/-- Environment with every connection-relevant variable set. -/
def okEnv : String → Option String := fun k =>
  if k = "GALAXY_URL" then some "http://$DOCKER_HOST:8080/galaxy"
  else if k = "API_KEY" then some "adminkey"
  else if k = "HISTORY_ID" then some "hist1"
  else if k = "GALAXY_WEB_PORT" then some "8080"
  else none

/-- World in which every external collaborator succeeds: the pipeline
yields a gateway address and both client conventions construct and read
without error. -/
def okWorld : World :=
  { env := okEnv
    netstat := Except.ok "172.17.0.1\n"
    mkObjectsGI := fun _ _ => Except.ok (Handle.mk 0)
    objHistGet := fun _ _ => Except.ok ()
    mkGI := fun _ _ => Except.ok (Handle.mk 1)
    getHistories := fun _ => Except.ok () }

/-- Environment identical to `okEnv` except that GALAXY_WEB_PORT is
unset. -/
def noPortEnv : String → Option String := fun k =>
  if k = "GALAXY_URL" then some "http://oldhost:8080/galaxy"
  else if k = "API_KEY" then some "adminkey"
  else if k = "HISTORY_ID" then some "hist1"
  else none

/-- World with GALAXY_WEB_PORT unset and all external collaborators
succeeding. -/
def noPortWorld : World :=
  { env := noPortEnv
    netstat := Except.ok "172.17.0.1\n"
    mkObjectsGI := fun _ _ => Except.ok (Handle.mk 0)
    objHistGet := fun _ _ => Except.ok ()
    mkGI := fun _ _ => Except.ok (Handle.mk 1)
    getHistories := fun _ => Except.ok () }

end GalaxyPy

namespace GalaxyPy

/-- Helper: `substGoF` leaves a delimiter-free character list untouched,
for any fuel that exceeds its length. -/
theorem substGoF_no_dollar (name repl : String) :
    ∀ (fuel : Nat) (cs : List Char), cs.length < fuel → '$' ∉ cs →
      substGoF name repl fuel cs = cs := by
  intro fuel
  induction fuel with
  | zero => intro cs h _; exact absurd h (Nat.not_lt_zero _)
  | succ n ih =>
    intro cs hlen hnd
    cases cs with
    | nil => rfl
    | cons c rest =>
      have hc : ¬(c = '$') := fun hh => hnd (hh ▸ List.mem_cons_self c rest)
      have hstep : substGoF name repl (n + 1) (c :: rest) =
          c :: substGoF name repl n rest := by
        simp [substGoF, hc]
      have hrest : rest.length < n := by
        simpa using Nat.lt_of_succ_lt_succ (by simpa using hlen)
      rw [hstep, ih rest hrest (fun hm => hnd (List.mem_cons_of_mem c hm))]

/-- Helper: the try body of `_test_url` raises on every path, because
even after a successful construction and read the `log.debug` call at
line 57 evaluates the unbound name `log`. -/
theorem attemptRead_error (w : World) (url : String) (key hid : Option String)
    (uo : Bool) : ∃ e, attemptRead w url key hid uo = Except.error e := by
  cases uo with
  | false =>
    rcases h1 : w.mkGI url key with e | gi
    · exact ⟨e, by simp [attemptRead, h1]⟩
    · rcases h2 : w.getHistories gi with e | u
      · exact ⟨e, by simp [attemptRead, h1, h2]⟩
      · exact ⟨PyExc.nameError, by simp [attemptRead, h1, h2, logDebug]⟩
  | true =>
    rcases h1 : w.mkObjectsGI url key with e | gi
    · exact ⟨e, by simp [attemptRead, h1]⟩
    · rcases h2 : w.objHistGet gi hid with e | u
      · exact ⟨e, by simp [attemptRead, h1, h2]⟩
      · exact ⟨PyExc.nameError, by simp [attemptRead, h1, h2, logDebug]⟩

/-- Helper: `_test_url` returns `none` for every world, URL, key,
history id and mode. -/
theorem test_url_none (w : World) (url : String) (key hid : Option String)
    (uo : Bool) : _test_url w url key hid uo = none := by
  obtain ⟨e, he⟩ := attemptRead_error w url key hid uo
  simp [_test_url, he]

/-- Helper: `_get_conf` always inserts the `galaxy_paster_port` key, so
Python's `'galaxy_paster_port' in conf` is true for every
environment. -/
theorem gpp_present (env : String → Option String) :
    dictHasKey (_get_conf env) "galaxy_paster_port" = true := rfl

/-- Helper: a separator-free join and a `/`-separated join agree on
lists of at most one string. -/
theorem join_intercalate_short :
    ∀ l : List String, l.length ≤ 1 → String.join l = String.intercalate "/" l
  | [], _ => rfl
  | [_], _ => rfl
  | _ :: _ :: _, h => absurd h (by simp)

/-- Claim C1: the resolver is claimed to either return a validated
handle or raise one of exactly two terminal errors, with
`ConnectionExhausted` whenever both candidates fail.  On the code this
fails: `get_galaxy_connection` always propagates the exception of
`_get_ip` -- `NameError` from the unbound name `log` when the netstat
pipeline succeeds, or the pipeline's own exception -- and never reaches
a probe, a return, or either terminal `raise`. -/
theorem c1_resolver_always_raises_name_error (w : World) (uo : Bool) :
    get_galaxy_connection w uo =
      Except.error
        (match w.netstat with
         | Except.ok _ => PyExc.nameError
         | Except.error e => e) := by
  rcases h : w.netstat with e | ip <;>
    simp [get_galaxy_connection, _get_ip, logDebug, h]

/-- Claim C2: with GALAXY_WEB_PORT unset and the templated candidate
failing, the claim demands an immediate `ConfigurationFault` ("No
port") with no probe of the reconstructed candidate.  On the code the
guard `'galaxy_paster_port' not in conf` is dead (`_get_conf` always
inserts that key), so the failover logic of lines 86-114, evaluated on
such a configuration, raises the terminal connection error after
probing -- and a probe that accepts the reconstructed candidate
`http://172.17.0.1:None/galaxy` (port rendered from None) is in fact
consulted and its handle returned. -/
theorem c2_port_guard_dead :
    resolveFrom (_get_conf noPortEnv) "172.17.0.1" (fun _ => none) =
      Except.error (PyExc.exception
        "Could not connect to a galaxy instance. Please contact your SysAdmin for help with this error") ∧
    resolveFrom (_get_conf noPortEnv) "172.17.0.1"
        (fun url => if url = "http://172.17.0.1:None/galaxy"
          then some (Handle.mk 7) else none) =
      Except.ok (Handle.mk 7) :=
  ⟨rfl, rfl⟩

/-- Claim C3: the probe is claimed never to propagate an exception
(true: `_test_url` is total and `Option`-valued, the except clause of
lines 59-60 catching everything) and to return a live handle on a
successful read.  The second half fails on the code: in `okWorld` both
client constructions and both reads succeed, yet `_test_url` returns
`none` in both modes, because `log.debug` at line 57 raises `NameError`
inside the try block after the successful read. -/
theorem c3_successful_read_yields_none :
    _test_url okWorld "http://172.17.0.1:8080/galaxy" (some "adminkey")
      (some "hist1") true = none ∧
    _test_url okWorld "http://172.17.0.1:8080/galaxy" (some "adminkey")
      (some "hist1") false = none :=
  ⟨rfl, rfl⟩

/-- Claim C4: the gateway lookup is claimed to return a best-effort
address string and never raise.  On the code `_get_ip` raises on every
call: the pipeline's own exception when the subprocess machinery fails,
and otherwise `NameError` from the unbound name `log` at line 43, so no
address is ever returned to the resolver. -/
theorem c4_get_ip_always_raises (w : World) :
    _get_ip w =
      Except.error
        (match w.netstat with
         | Except.ok _ => PyExc.nameError
         | Except.error e => e) := by
  rcases h : w.netstat with e | ip <;> simp [_get_ip, logDebug, h]

/-- Claim C5: the short-circuit claim presupposes a configuration whose
templated candidate validates successfully; on the code no candidate can
ever validate -- `_test_url` returns `none` for every world, URL, key,
history id and mode -- and the resolver raises `NameError` out of
`_get_ip` before any probe, as the evaluation on the all-succeeding
`okWorld` shows, so it never returns a handle bound to the templated
candidate. -/
theorem c5_templated_candidate_never_validates :
    (∀ (w : World) (url : String) (key hid : Option String) (uo : Bool),
      _test_url w url key hid uo = none) ∧
    get_galaxy_connection okWorld true = Except.error PyExc.nameError :=
  ⟨fun w url key hid uo => test_url_none w url key hid uo, rfl⟩

/-- Claim C6: the templated candidate is built by substituting the
gateway address for the placeholder in the configured template, the
template being left unchanged when no placeholder occurs; in particular
`http://$DOCKER_HOST:8080/galaxy` with gateway `172.17.0.1` yields
exactly `http://172.17.0.1:8080/galaxy`. -/
theorem c6_candidate1_substitution :
    (∀ t ip : String, '$' ∉ t.data → candidate1 t ip = t) ∧
    candidate1 "http://$DOCKER_HOST:8080/galaxy" "172.17.0.1" =
      "http://172.17.0.1:8080/galaxy" := by
  constructor
  · intro t ip hnd
    obtain ⟨cs⟩ := t
    exact congrArg String.mk
      (substGoF_no_dollar "DOCKER_HOST" ip (cs.length + 1) cs
        (Nat.lt_succ_self _) hnd)
  · rfl

/-- Witness for claim C6 at a placeholder-free template. -/
theorem c6_candidate1_substitution_witness :
    candidate1 "http://myhost:8080/galaxy" "172.17.0.1" =
      "http://myhost:8080/galaxy" :=
  c6_candidate1_substitution.1 "http://myhost:8080/galaxy" "172.17.0.1"
    (by decide)

/-- Counterexample to claim C7: the code joins the path components after
the third `/` WITHOUT separators (`''.join(app_path.split('/')[3:])`,
line 95), so a template whose path has two segments does not keep its
path suffix: the built candidate is `http://172.17.0.1:8080/galaxyapi`
while the claim's description (keep the path suffix) gives
`http://172.17.0.1:8080/galaxy/api`. -/
theorem c7_candidate2_counterexample :
    candidate2 "http://oldhost:8080/galaxy/api/" "172.17.0.1" (some "8080") =
      "http://172.17.0.1:8080/galaxyapi" ∧
    candidate2_spec "http://oldhost:8080/galaxy/api/" "172.17.0.1" "8080" =
      "http://172.17.0.1:8080/galaxy/api" ∧
    ("http://172.17.0.1:8080/galaxyapi" : String) ≠
      "http://172.17.0.1:8080/galaxy/api" :=
  ⟨rfl, rfl, by decide⟩

/-- Claim C7 as amended: the reconstructed candidate concatenates the
path components after the protocol/host/port segment without
separators, which agrees with the claim's keep-the-path-suffix
description exactly when that path has at most one component (and the
address and path carry no surrounding whitespace); the claim's concrete
scenario -- template `http://oldhost:8080/galaxy/`, port `8080`,
gateway `172.17.0.1` -- falls in that case and yields exactly
`http://172.17.0.1:8080/galaxy`. -/
theorem c7_candidate2_reconstruction :
    candidate2 "http://oldhost:8080/galaxy/" "172.17.0.1" (some "8080") =
      "http://172.17.0.1:8080/galaxy" ∧
    ∀ gurl ip p : String, pyStrip ip = ip →
      ((pySplitSlash (pyRstripSlash gurl)).drop 3).length ≤ 1 →
      pyStrip (app_path_of gurl) = app_path_of gurl →
      candidate2 gurl ip (some p) = candidate2_spec gurl ip p := by
  refine ⟨rfl, fun gurl ip p h1 h2 h3 => ?_⟩
  have h4 : app_path_of gurl =
      String.intercalate "/" ((pySplitSlash (pyRstripSlash gurl)).drop 3) :=
    join_intercalate_short _ h2
  calc candidate2 gurl ip (some p)
      = pyRstripSlash ("http://" ++ pyStrip ip ++ ":" ++ p ++ "/" ++
          pyStrip (app_path_of gurl)) := rfl
    _ = pyRstripSlash ("http://" ++ ip ++ ":" ++ p ++ "/" ++
          app_path_of gurl) := by rw [h1, h3]
    _ = candidate2_spec gurl ip p := by rw [h4]; rfl

/-- Witness for the amended claim C7 at a single-segment template. -/
theorem c7_candidate2_reconstruction_witness :
    candidate2 "http://oldhost:8080/galaxy" "10.0.0.1" (some "9090") =
      candidate2_spec "http://oldhost:8080/galaxy" "10.0.0.1" "9090" :=
  c7_candidate2_reconstruction.2 "http://oldhost:8080/galaxy" "10.0.0.1"
    "9090" (by decide) (by decide) (by decide)

/-- Claim C8: for every process environment, `_get_conf` succeeds and
holds an entry for each fixed key name (stored lower-cased), a variable
absent from the environment being mapped to the absent marker `None`
rather than raising. -/
theorem c8_conf_lookup_total (env : String → Option String) (k : String)
    (hk : k ∈ ENV_KEYS) :
    dictHasKey (_get_conf env) (pyLower k) = true ∧
    (env k = none → dictItem (_get_conf env) (pyLower k) = none) := by
  simp only [ENV_KEYS, List.mem_cons, List.not_mem_nil, or_false] at hk
  rcases hk with rfl | rfl | rfl | rfl | rfl | rfl | rfl | rfl | rfl <;>
    exact ⟨rfl, fun h => h⟩

/-- Witness for claim C8: the empty environment and the API_KEY
variable. -/
theorem c8_conf_lookup_total_witness :
    dictItem (_get_conf (fun _ => none)) (pyLower "API_KEY") = none :=
  (c8_conf_lookup_total (fun _ => none) "API_KEY" (by decide)).2 rfl

/-- Counterexample to claim C9: with GALAXY_WEB_PORT unset and every
external collaborator succeeding, the resolver does not assemble or
probe any fallback URL -- it raises `NameError` out of `_get_ip`
(unbound name `log`), an outcome the failover logic of lines 86-114 can
never produce. -/
theorem c9_name_error_preempts_fallback :
    get_galaxy_connection noPortWorld false = Except.error PyExc.nameError :=
  rfl

/-- Claim C9 as amended: the bundle always contains
`galaxy_paster_port`, so the membership guard of line 97 never fires
and the `No port` error is unreachable from any configuration built by
`_get_conf`; and the fallback URL expression, evaluated with the port
absent, renders the port component as the string `None` -- but the
resolver itself never reaches that expression, raising `NameError`
inside `_get_ip` first. -/
theorem c9_paster_port_always_present :
    (∀ env : String → Option String,
      dictHasKey (_get_conf env) "galaxy_paster_port" = true) ∧
    (∀ (env : String → Option String) (ip : String)
        (probe : String → Option Handle),
      resolveFrom (_get_conf env) ip probe ≠
        Except.error (PyExc.exception "No port")) ∧
    candidate2 "http://oldhost:8080/galaxy" "172.17.0.1" none =
      "http://172.17.0.1:None/galaxy" := by
  refine ⟨fun env => gpp_present env, fun env ip probe hbad => ?_, rfl⟩
  unfold resolveFrom at hbad
  split at hbad
  · exact PyExc.noConfusion (Except.error.inj hbad)
  · split at hbad
    · exact Except.noConfusion hbad
    · rw [gpp_present env] at hbad
      simp only [Bool.not_true, Bool.false_eq_true, if_false] at hbad
      split at hbad
      · exact Except.noConfusion hbad
      · have h2 := Except.error.inj hbad
        have h3 := PyExc.exception.inj h2
        exact absurd h3 (by decide)

/-- Claim C10: in low-level direct mode the probe's result does not
depend on the session/history identifier -- the else branch of
`_test_url` only lists the available histories and never consults the
named record. -/
theorem c10_low_level_probe_ignores_history (w : World) (url : String)
    (key h1 h2 : Option String) :
    _test_url w url key h1 false = _test_url w url key h2 false := rfl

end GalaxyPy
